import Mathlib

/-!
Shallow embedding of `is31fl3731.py` (driver for the IS31FL3731 charlieplexed
LED matrix) and proofs about its behaviour.

The I2C bus together with the device register file is modelled explicitly:
the device holds a bank-select register at address 0xFD and, per bank, a map
from register addresses to bytes.  Every `writeto_mem` / `readfrom_mem` call
of the driver is recorded in a transaction trace, so "performs zero bus
transactions" is statable.

Python numbers that can flow into `bytearray` are modelled by `PyNum`:
either an `int` (arbitrary-precision, `Int`) or a `float` (`PyFloat`, an
exact fraction).  In every code path proved about below the comparisons
performed on floats are far from the binary64 rounding error of the
corresponding Python computation (e.g. `delay / 11` compared against the
integers 1 and 64), so the exact model agrees with the float one there.
Python `bool` arguments (e.g. `audio_sync(False)`) are modelled as the ints
0 / 1, matching `bool` being an `int` subclass.

Errors (`ValueError`, `TypeError`) are modelled with `PyErr`; a raised
exception propagates out of a method while keeping all object / device state
mutations performed so far, exactly as in Python, so the result type
`PyResult` carries the state in both the normal and the error case.
-/

set_option autoImplicit false

namespace IS31FL3731

/-- Python exceptions raised by the driver or by builtins it calls. -/
inductive PyErr where
  | valueError (msg : String)
  | typeError (msg : String)
  deriving DecidableEq, Repr

/-- A Python float, modelled as an exact fraction `num / den` with
`den > 0` by construction (all divisions in the driver are by the positive
literals 11, 26 and 64).  The fractions are not normalised; comparisons
cross-multiply by the positive denominator.  The driver only compares
these values against the integers 0, 1 and 64, far from the binary64
rounding error of the corresponding Python computation, so the exact model
agrees with the float one on every path below. -/
structure PyFloat where
  num : Int
  den : Int
  deriving DecidableEq, Repr

/-- A Python number as it reaches `bytearray`: an int or a float. -/
inductive PyNum where
  | int (n : Int)
  | float (f : PyFloat)
  deriving DecidableEq, Repr

/-- Python `v == 0` for an int or float `v`. -/
def pyIsZero : PyNum → Prop
  | .int n => n = 0
  | .float f => f.num = 0

instance (v : PyNum) : Decidable (pyIsZero v) := by
  cases v <;> simp only [pyIsZero] <;> infer_instance

/-- Python truthiness of a number (`if value:`). -/
def pyTruthy : PyNum → Prop
  | .int n => n ≠ 0
  | .float f => f.num ≠ 0

instance (v : PyNum) : Decidable (pyTruthy v) := by
  cases v <;> simp only [pyTruthy] <;> infer_instance

/-- `k <= f` for an int `k` and float `f` (denominator positive). -/
def PyFloat.intLe (k : Int) (f : PyFloat) : Prop := k * f.den ≤ f.num

/-- `f <= k` for a float `f` and int `k` (denominator positive). -/
def PyFloat.leInt (f : PyFloat) (k : Int) : Prop := f.num ≤ k * f.den

instance (k : Int) (f : PyFloat) : Decidable (PyFloat.intLe k f) :=
  inferInstanceAs (Decidable (_ ≤ _))

instance (f : PyFloat) (k : Int) : Decidable (PyFloat.leInt f k) :=
  inferInstanceAs (Decidable (_ ≤ _))

/-- Python 3 true division of a number by a positive int literal: always a
float. -/
def PyNum.divInt : PyNum → Int → PyFloat
  | .int n, k => ⟨n, k⟩
  | .float f, k => ⟨f.num, f.den * k⟩

/-- Python `f % k` for a float `f` and positive int `k`:
`f - k * floor (f / k)`, still a float. -/
def PyFloat.modInt (f : PyFloat) (k : Int) : PyFloat :=
  ⟨f.num - k * f.den * (f.num.fdiv (k * f.den)), f.den⟩

/-- `bytearray([v])` for a single element `v`: an int must be in `[0, 255]`
(otherwise `ValueError`); a float is rejected with `TypeError` (no implicit
float-to-int conversion). -/
def bytearray1 : PyNum → Except PyErr Nat
  | .int n =>
    if 0 ≤ n ∧ n ≤ 255 then .ok n.toNat
    else .error (.valueError "byte value out of range")
  | .float _ => .error (.typeError "cant convert float to int")

/-- `int(math.log(f, 2))` for a positive float `f = num / den`: the base-2
logarithm truncated toward zero.  For `f ≥ 1` this is `Nat.log2 ⌊f⌋`; for
`0 < f < 1` it is `-(Nat.log2 ⌊1/f⌋)` (truncation toward zero, not floor).
Exact binary64 evaluation can differ only when `log2 f` is within rounding
error of an integer; no claim proved below depends on this path. -/
def truncLog2 (f : PyFloat) : Int :=
  if f.den ≤ f.num then (Nat.log2 (f.num.fdiv f.den).toNat : Int)
  else -(Nat.log2 (f.den.fdiv f.num).toNat : Int)

/-- One I2C transaction issued by the driver, as seen on the bus. -/
inductive Tx where
  | write (addr : Nat) (reg : Int) (data : List Nat)
  | read (addr : Nat) (reg : Int)
  deriving DecidableEq, Repr

/-- The I2C device: current bank selection, per-bank register file, and the
trace of all transactions issued so far (oldest first). -/
structure Bus where
  sel : Nat
  mem : Nat → Int → Nat
  trace : List Tx

/-- The driver object: constructor attributes plus `self._frame`.
`curFrame` models `self._frame`; in Python the attribute does not exist
until `init` runs `frame(0)`, which happens inside the constructor before
any read of it, so the construction placeholder value is never observed. -/
structure DState where
  width : Int
  height : Int
  address : Nat
  curFrame : Int
  bus : Bus

/-- Register constants from the source. -/
def _MODE_REGISTER : Int := 0x00
def _FRAME_REGISTER : Int := 0x01
def _AUTOPLAY1_REGISTER : Int := 0x02
def _AUTOPLAY2_REGISTER : Int := 0x03
def _BREATH1_REGISTER : Int := 0x08
def _BREATH2_REGISTER : Int := 0x09
def _AUDIOSYNC_REGISTER : Int := 0x06
def _SHUTDOWN_REGISTER : Int := 0x0a
def _CONFIG_BANK : Int := 0x0b
def _BANK_ADDRESS : Int := 0xfd
def _PICTURE_MODE : Int := 0x00
def _AUTOPLAY_MODE : Int := 0x08
def _AUDIOPLAY_MODE : Int := 0x18

/-- Device semantics of a multi-byte memory write: bytes land at
consecutive register addresses; a byte addressed at 0xFD sets the bank
selection, any other byte lands in the currently selected bank. -/
def busWriteBytes (bus : Bus) (reg : Int) (data : List Nat) : Bus :=
  match data with
  | [] => bus
  | d :: rest =>
    let bus1 :=
      if reg = _BANK_ADDRESS then { bus with sel := d }
      else { bus with mem := fun b r => if b = bus.sel ∧ r = reg then d else bus.mem b r }
    busWriteBytes bus1 (reg + 1) rest

/-- `self.i2c.writeto_mem(addr, reg, data)`: apply the write to the device
and record the transaction. -/
def i2c_writeto_mem (s : DState) (addr : Nat) (reg : Int) (data : List Nat) : DState :=
  let bus1 := busWriteBytes s.bus reg data
  { s with bus := { bus1 with trace := bus1.trace ++ [Tx.write addr reg data] } }

/-- `self.i2c.readfrom_mem(addr, reg, 1)[0]`: read one byte (0xFD reads the
bank selection) and record the transaction. -/
def i2c_readfrom_mem (s : DState) (addr : Nat) (reg : Int) : Nat × DState :=
  let b := if reg = _BANK_ADDRESS then s.bus.sel else s.bus.mem s.bus.sel reg
  (b, { s with bus := { s.bus with trace := s.bus.trace ++ [Tx.read addr reg] } })

/-- Result of running a method body: Python exceptions keep the state
mutated so far. -/
inductive PyResult (α : Type) where
  | ok (val : α) (s : DState)
  | err (e : PyErr) (s : DState)

/-- A method body: a state transformer that can raise. -/
def PyM (α : Type) : Type := DState → PyResult α

def PyM.pure {α : Type} (a : α) : PyM α := fun s => .ok a s

def PyM.bind {α β : Type} (m : PyM α) (k : α → PyM β) : PyM β := fun s =>
  match m s with
  | .ok a s1 => k a s1
  | .err e s1 => .err e s1

/-- Discard a method result (a call used as a statement). -/
def PyM.toUnit {α : Type} (m : PyM α) : PyM Unit := m.bind fun _ => PyM.pure ()

/-- `raise e`. -/
def pyRaise {α : Type} (e : PyErr) : PyM α := fun s => .err e s

/-- Run a state-independent fallible computation inside a method body. -/
def liftExcept {α : Type} (e : Except PyErr α) : PyM α := fun s =>
  match e with
  | .ok a => .ok a s
  | .error er => .err er s

/-- `for x in xs: body(x)` (bodies here never break or return). -/
def pyFor {α : Type} (xs : List α) (body : α → PyM Unit) : PyM Unit := fun s =>
  match xs with
  | [] => .ok () s
  | x :: rest =>
    match body x s with
    | .ok _ s1 => pyFor rest body s1
    | .err e s1 => .err e s1

/-- State after a method run, whether it returned or raised. -/
def PyResult.stateAfter {α : Type} : PyResult α → DState
  | .ok _ s => s
  | .err _ s => s

/-- Returned value of a method run, `none` if it raised. -/
def PyResult.valueOf {α : Type} : PyResult α → Option α
  | .ok a _ => some a
  | .err _ _ => none

/-- Whether a method run raised. -/
def PyResult.isErr {α : Type} : PyResult α → Bool
  | .ok _ _ => false
  | .err _ _ => true

namespace Matrix

/-- `Matrix._bank(bank=None)`: read or write the bank-select register. -/
def _bank (bank : Option Int) : PyM (Option Nat) := fun s =>
  match bank with
  | none =>
    let p := i2c_readfrom_mem s s.address _BANK_ADDRESS
    .ok (some p.1) p.2
  | some b =>
    match bytearray1 (.int b) with
    | .error e => .err e s
    | .ok bb => .ok none (i2c_writeto_mem s s.address _BANK_ADDRESS [bb])

/-- `Matrix._register(bank, register, value=None)`: select the bank, then
read or write one register in it. -/
def _register (bank : Int) (register : Int) (value : Option PyNum) : PyM (Option Nat) :=
  (_bank (some bank)).bind fun _ => fun s =>
    match value with
    | none =>
      let p := i2c_readfrom_mem s s.address register
      .ok (some p.1) p.2
    | some v =>
      match bytearray1 v with
      | .error e => .err e s
      | .ok b => .ok none (i2c_writeto_mem s s.address register [b])

/-- `Matrix._mode(mode=None)`. -/
def _mode (mode : Option PyNum) : PyM (Option Nat) :=
  _register _CONFIG_BANK _MODE_REGISTER mode

/-- `Matrix.sleep(value)`: passes `value` straight through to the shutdown
register (a write when `value` is a number, a read when it is `None`). -/
def sleep (value : Option PyNum) : PyM (Option Nat) :=
  _register _CONFIG_BANK _SHUTDOWN_REGISTER value

/-- `Matrix.audio_sync(value=None)`. -/
def audio_sync (value : Option PyNum) : PyM (Option Nat) :=
  _register _CONFIG_BANK _AUDIOSYNC_REGISTER value

/-- `Matrix.audio_play(value=None)`: read compares the mode register with
`_AUDIOPLAY_MODE`; write sets the mode according to the truthiness of
`value`. -/
def audio_play (value : Option PyNum) : PyM (Option Bool) := fun s =>
  match value with
  | none =>
    ((_mode none).bind fun b =>
      PyM.pure (some ((b.getD 0 : Int) = _AUDIOPLAY_MODE : Bool))) s
  | some v =>
    if pyTruthy v then (PyM.toUnit (_mode (some (.int _AUDIOPLAY_MODE)))).bind (fun _ => PyM.pure none) s
    else (PyM.toUnit (_mode (some (.int _PICTURE_MODE)))).bind (fun _ => PyM.pure none) s

/-- `Matrix.frame(frame=None, show=True)`: read returns `self._frame`;
write validates `0 <= frame <= 8`, assigns `self._frame`, and when `show`
also writes the frame-pointer configuration register. -/
def frame (f : Option Int) (showF : Bool) : PyM (Option Int) := fun s =>
  match f with
  | none => .ok (some s.curFrame) s
  | some n =>
    if ¬(0 ≤ n ∧ n ≤ 8) then .err (.valueError "Frame out of range") s
    else
      let s1 : DState := { s with curFrame := n }
      if showF then
        ((_register _CONFIG_BANK _FRAME_REGISTER (some (.int n))).bind fun _ =>
          PyM.pure none) s1
      else .ok none s1

/-- `Matrix.autoplay(delay=0, loops=0, frames=0)`.  `delay /= 11` is
Python 3 true division, so after it `delay` is a float; on the enabling
path that float eventually reaches `bytearray` in the autoplay-register-2
write.  `loops << 4 | frames` is computed on ints validated into `[0, 7]`,
where int and Nat bitwise operations agree, hence the `toNat`s. -/
def autoplay (delay : PyNum) (loops frames : Int) : PyM Unit := fun s =>
  if pyIsZero delay then (PyM.toUnit (_mode (some (.int _PICTURE_MODE)))) s
  else
    let d : PyFloat := delay.divInt 11
    if ¬(0 ≤ loops ∧ loops ≤ 7) then .err (.valueError "Loops out of range") s
    else if ¬(0 ≤ frames ∧ frames ≤ 7) then .err (.valueError "Frames out of range") s
    else if ¬(PyFloat.intLe 1 d ∧ d.leInt 64) then .err (.valueError "Delay out of range") s
    else
      ((_register _CONFIG_BANK _AUTOPLAY1_REGISTER
          (some (.int (Int.ofNat (loops.toNat <<< 4 ||| frames.toNat))))).bind fun _ =>
        (_register _CONFIG_BANK _AUTOPLAY2_REGISTER
          (some (.float (d.modInt 64)))).bind fun _ => fun s2 =>
          (PyM.toUnit (_mode (some (.int
            (Int.ofNat (_AUTOPLAY_MODE.toNat ||| s2.curFrame.toNat)))))) s2) s

/-- `fade_in / 26` step of `Matrix.fade`: dividing `None` by an int is a
`TypeError`; a number divides exactly (true division, a float). -/
def fadeDiv26 : Option PyNum → Except PyErr PyFloat
  | none => .error (.typeError "unsupported operand for div: NoneType and int")
  | some v => .ok (v.divInt 26)

/-- `int(math.log(f, 2))`: domain error for `f <= 0`, else truncation of
the base-2 logarithm toward zero. -/
def mathLog2Int (f : PyFloat) : Except PyErr Int :=
  if f.num ≤ 0 then .error (.valueError "math domain error")
  else .ok (truncLog2 f)

/-- `Matrix.fade(fade_in=None, fade_out=None, pause=0)`.  Note the source
has no `return` in the both-`None` branch: after clearing the second
breath register it falls through to the `int(math.log(fade_in / 26, 2))`
line with `fade_in` still `None`. -/
def fade (fade_in fade_out : Option PyNum) (pause : PyNum) : PyM Unit :=
  PyM.bind (fun s =>
    if fade_in = none ∧ fade_out = none then
      ((PyM.toUnit (_register _CONFIG_BANK _BREATH2_REGISTER (some (.int 0)))).bind fun _ =>
        PyM.pure (fade_in, fade_out)) s
    else if fade_in = none then .ok (fade_out, fade_out) s
    else if fade_out = none then .ok (fade_in, fade_in) s
    else .ok (fade_in, fade_out) s) fun fifo =>
  (liftExcept (fadeDiv26 fifo.1 >>= mathLog2Int)).bind fun fiExp =>
  (liftExcept (fadeDiv26 fifo.2 >>= mathLog2Int)).bind fun foExp =>
  (liftExcept (fadeDiv26 (some pause) >>= mathLog2Int)).bind fun pExp =>
  if ¬(0 ≤ fiExp ∧ fiExp ≤ 7) then pyRaise (.valueError "Fade in out of range")
  else if ¬(0 ≤ foExp ∧ foExp ≤ 7) then pyRaise (.valueError "Fade out out of range")
  else if ¬(0 ≤ pExp ∧ pExp ≤ 7) then pyRaise (.valueError "Pause out of range")
  else
    (_register _CONFIG_BANK _BREATH1_REGISTER
      (some (.int (Int.ofNat (foExp.toNat <<< 4 ||| fiExp.toNat))))).bind fun _ =>
    PyM.toUnit (_register _CONFIG_BANK _BREATH2_REGISTER
      (some (.int (Int.ofNat (1 <<< 4 ||| pExp.toNat)))))

/-- `Matrix.fill(color=0, frame=None)`: validate the color, select the
target frame bank, then write the 144 color bytes at offset 0x24 in six
row bursts of 24 bytes. -/
def fill (color : Int) (frameArg : Option Int) : PyM Unit := fun s =>
  if ¬(0 ≤ color ∧ color ≤ 255) then .err (.valueError "Color out of range") s
  else
    let f := frameArg.getD s.curFrame
    ((_bank (some f)).bind fun _ =>
      pyFor (List.range 6) fun row => fun s1 =>
        .ok () (i2c_writeto_mem s1 s1.address (0x24 + (row : Int) * 24)
          (List.replicate 24 color.toNat))) s

/-- `Matrix.pixel(x, y, color=None, frame=None)`: silently return on
out-of-bounds coordinates (inclusive `width` / `height` comparisons as in
the source); read the register at linear index `x + y * width` in the
active frame when `color` is omitted; otherwise validate the color and
write that register in the target frame.  Note the linear index is used as
the raw register address, without the 0x24 color offset that `fill` uses. -/
def pixel (x y : Int) (color : Option Int) (frameArg : Option Int) : PyM (Option Nat) := fun s =>
  if ¬(0 ≤ x ∧ x ≤ s.width) then .ok none s
  else if ¬(0 ≤ y ∧ y ≤ s.height) then .ok none s
  else
    match color with
    | none => _register s.curFrame (x + y * s.width) none s
    | some c =>
      if ¬(0 ≤ c ∧ c ≤ 255) then .err (.valueError "Color out of range") s
      else
        ((_register (frameArg.getD s.curFrame) (x + y * s.width) (some (.int c))).bind fun _ =>
          PyM.pure none) s

/-- `Matrix.init()`: picture mode, frame 0, fill frame 0 with 0, write the
18 enable bytes of each of the 8 picture frames to 0xFF, audio sync off. -/
def init : PyM Unit :=
  (PyM.toUnit (_mode (some (.int _PICTURE_MODE)))).bind fun _ =>
  (PyM.toUnit (frame (some 0) true)).bind fun _ =>
  (fill 0 none).bind fun _ =>
  (pyFor (List.range 8) fun f =>
    pyFor (List.range 18) fun col =>
      PyM.toUnit (_register (f : Int) (col : Int) (some (.int 0xff)))).bind fun _ =>
  PyM.toUnit (audio_sync (some (.int 0)))

/-- `Matrix.__init__(width, height, i2c, address=0x74)`: store the
attributes and run `init`.  `curFrame` starts at a placeholder; `init`
assigns it via `frame(0)` before anything reads it. -/
def construct (width height : Int) (address : Nat) (bus : Bus) : PyResult Unit :=
  init { width := width, height := height, address := address, curFrame := 0, bus := bus }

end Matrix

/-- The public operations of the driver, for stating whole-API invariants. -/
inductive Op where
  | opInit
  | opFrame (f : Option Int) (showF : Bool)
  | opSleep (v : Option PyNum)
  | opAutoplay (delay : PyNum) (loops frames : Int)
  | opFade (fi fo : Option PyNum) (pause : PyNum)
  | opAudioSync (v : Option PyNum)
  | opAudioPlay (v : Option PyNum)
  | opFill (color : Int) (frameArg : Option Int)
  | opPixel (x y : Int) (color : Option Int) (frameArg : Option Int)

/-- Run one public operation, discarding its return value. -/
def runOp : Op → PyM Unit
  | .opInit => Matrix.init
  | .opFrame f showF => PyM.toUnit (Matrix.frame f showF)
  | .opSleep v => PyM.toUnit (Matrix.sleep v)
  | .opAutoplay d l f => Matrix.autoplay d l f
  | .opFade fi fo p => Matrix.fade fi fo p
  | .opAudioSync v => PyM.toUnit (Matrix.audio_sync v)
  | .opAudioPlay v => PyM.toUnit (Matrix.audio_play v)
  | .opFill c f => Matrix.fill c f
  | .opPixel x y c f => PyM.toUnit (Matrix.pixel x y c f)

/-- A mock device whose registers all power up holding 7 (an arbitrary
nonzero byte, so that writes of 0 are observable) with nothing on the
trace yet. -/
def bus0 : Bus := { sel := 0, mem := fun _ _ => 7, trace := [] }

/-- A driver state for the 16x9 device variant of the class docstring
(`Matrix(16, 9, i2c)`), with the active frame at 0. -/
def sDemo : DState :=
  { width := 16, height := 9, address := 0x74, curFrame := 0, bus := bus0 }

/-- The state right after `Matrix(16, 9, i2c)` finishes constructing
against the mock device. -/
def sInit : DState := (Matrix.construct 16 9 0x74 bus0).stateAfter

/-- Number of bus transactions in a trace that write the shutdown register
(register 0x0A of the configuration bank), replaying the bank-select
register through the trace starting from `sel`.  A multi-byte burst counts
if its address range covers 0x0A while the configuration bank is selected
(the driver only ever writes the bank-select register one byte at a
time). -/
def shutdownWrites (sel : Nat) : List Tx → Nat
  | [] => 0
  | Tx.write _ reg data :: rest =>
    if reg = _BANK_ADDRESS then shutdownWrites (data.headD sel) rest
    else
      (if sel = _CONFIG_BANK.toNat ∧ reg ≤ _SHUTDOWN_REGISTER ∧
          _SHUTDOWN_REGISTER < reg + data.length then 1 else 0) +
        shutdownWrites sel rest
  | Tx.read _ _ :: rest => shutdownWrites sel rest

/-- The claimed invariant on `self._frame`. -/
def FrameInv (s : DState) : Prop := 0 ≤ s.curFrame ∧ s.curFrame ≤ 8

/-- A method body that never changes `self._frame` (whether it returns or
raises). -/
def PreservesFrame {α : Type} (m : PyM α) : Prop :=
  ∀ s, ((m s).stateAfter).curFrame = s.curFrame

/-! ### Helper lemmas -/

theorem bytearray1_int_ok {n : Int} (h0 : 0 ≤ n) (h255 : n ≤ 255) :
    bytearray1 (.int n) = .ok n.toNat := by
  simp only [bytearray1]
  rw [if_pos ⟨h0, h255⟩]

theorem preservesFrame_pure {α : Type} (a : α) : PreservesFrame (PyM.pure a) :=
  fun _ => rfl

theorem preservesFrame_bind {α β : Type} {m : PyM α} {k : α → PyM β}
    (hm : PreservesFrame m) (hk : ∀ a, PreservesFrame (k a)) :
    PreservesFrame (m.bind k) := by
  intro s
  unfold PyM.bind
  cases h : m s with
  | ok a s1 =>
    have h1 := hm s
    rw [h] at h1
    exact (hk a s1).trans h1
  | err e s1 =>
    have h1 := hm s
    rw [h] at h1
    exact h1

theorem preservesFrame_toUnit {α : Type} {m : PyM α} (hm : PreservesFrame m) :
    PreservesFrame m.toUnit :=
  preservesFrame_bind hm fun _ => preservesFrame_pure _

theorem preservesFrame_pyFor {α : Type} (xs : List α) (body : α → PyM Unit)
    (hb : ∀ x, PreservesFrame (body x)) : PreservesFrame (pyFor xs body) := by
  induction xs with
  | nil => intro s; rfl
  | cons x rest ih =>
    intro s
    unfold pyFor
    cases h : body x s with
    | ok a s1 =>
      have h1 := hb x s
      rw [h] at h1
      exact (ih s1).trans h1
    | err e s1 =>
      have h1 := hb x s
      rw [h] at h1
      exact h1

theorem preservesFrame_bank (b : Option Int) : PreservesFrame (Matrix._bank b) := by
  intro s
  cases b with
  | none => rfl
  | some n =>
    cases h : bytearray1 (.int n) <;>
      simp [Matrix._bank, h, PyResult.stateAfter, i2c_writeto_mem]

theorem preservesFrame_register (bank reg : Int) (v : Option PyNum) :
    PreservesFrame (Matrix._register bank reg v) := by
  apply preservesFrame_bind (preservesFrame_bank _)
  intro a s
  cases v with
  | none => rfl
  | some pv =>
    cases h : bytearray1 pv <;>
      simp [h, PyResult.stateAfter, i2c_writeto_mem]

theorem preservesFrame_mode (v : Option PyNum) : PreservesFrame (Matrix._mode v) :=
  preservesFrame_register _ _ _

theorem preservesFrame_sleep (v : Option PyNum) : PreservesFrame (Matrix.sleep v) :=
  preservesFrame_register _ _ _

theorem preservesFrame_audio_sync (v : Option PyNum) :
    PreservesFrame (Matrix.audio_sync v) :=
  preservesFrame_register _ _ _

theorem preservesFrame_audio_play (v : Option PyNum) :
    PreservesFrame (Matrix.audio_play v) := by
  intro s
  cases v with
  | none =>
    exact preservesFrame_bind (preservesFrame_mode none)
      (fun b => preservesFrame_pure _) s
  | some pv =>
    simp only [Matrix.audio_play]
    by_cases h : pyTruthy pv
    · rw [if_pos h]
      exact preservesFrame_bind (preservesFrame_toUnit (preservesFrame_mode _))
        (fun _ => preservesFrame_pure _) s
    · rw [if_neg h]
      exact preservesFrame_bind (preservesFrame_toUnit (preservesFrame_mode _))
        (fun _ => preservesFrame_pure _) s

theorem preservesFrame_autoplay (d : PyNum) (loops frames : Int) :
    PreservesFrame (Matrix.autoplay d loops frames) := by
  intro s
  unfold Matrix.autoplay
  dsimp only
  split
  · exact preservesFrame_toUnit (preservesFrame_mode _) s
  · split
    · rfl
    · split
      · rfl
      · split
        · rfl
        · exact preservesFrame_bind (preservesFrame_register _ _ _)
            (fun _ => preservesFrame_bind (preservesFrame_register _ _ _)
              (fun _ s2 => preservesFrame_toUnit (preservesFrame_mode _) s2)) s

theorem preservesFrame_liftExcept {α : Type} (e : Except PyErr α) :
    PreservesFrame (liftExcept e) := by
  intro s
  cases e <;> rfl

theorem preservesFrame_fade (fi fo : Option PyNum) (p : PyNum) :
    PreservesFrame (Matrix.fade fi fo p) := by
  unfold Matrix.fade
  refine preservesFrame_bind ?_ fun fifo => ?_
  · intro s1
    split
    · exact preservesFrame_bind (preservesFrame_toUnit (preservesFrame_register _ _ _))
        (fun _ => preservesFrame_pure _) s1
    · split
      · rfl
      · split
        · rfl
        · rfl
  refine preservesFrame_bind (preservesFrame_liftExcept _) fun fiExp => ?_
  refine preservesFrame_bind (preservesFrame_liftExcept _) fun foExp => ?_
  refine preservesFrame_bind (preservesFrame_liftExcept _) fun pExp => ?_
  intro s1
  split
  · rfl
  · split
    · rfl
    · split
      · rfl
      · exact preservesFrame_bind (preservesFrame_register _ _ _)
          (fun _ => preservesFrame_toUnit (preservesFrame_register _ _ _)) s1

theorem preservesFrame_fill (c : Int) (f : Option Int) :
    PreservesFrame (Matrix.fill c f) := by
  intro s
  unfold Matrix.fill
  dsimp only
  split
  · rfl
  · refine preservesFrame_bind (preservesFrame_bank _)
      (fun _ => preservesFrame_pyFor _ _ ?_) s
    intro row s1
    rfl

theorem preservesFrame_pixel (x y : Int) (c f : Option Int) :
    PreservesFrame (Matrix.pixel x y c f) := by
  intro s
  unfold Matrix.pixel
  split
  · rfl
  · split
    · rfl
    · cases c with
      | none =>
        dsimp only
        exact preservesFrame_register _ _ _ s
      | some cv =>
        dsimp only
        split
        · rfl
        · exact preservesFrame_bind (preservesFrame_register _ _ _)
            (fun _ => preservesFrame_pure _) s

theorem bank_write_ok {b : Int} (h0 : 0 ≤ b) (h255 : b ≤ 255) (s : DState) :
    Matrix._bank (some b) s =
      .ok none (i2c_writeto_mem s s.address _BANK_ADDRESS [b.toNat]) := by
  simp only [Matrix._bank, bytearray1_int_ok h0 h255]

theorem register_write_ok {b c : Int} (hb0 : 0 ≤ b) (hb255 : b ≤ 255)
    (hc0 : 0 ≤ c) (hc255 : c ≤ 255) (reg : Int) (s : DState) :
    Matrix._register b reg (some (.int c)) s =
      .ok none (i2c_writeto_mem (i2c_writeto_mem s s.address _BANK_ADDRESS [b.toNat])
        s.address reg [c.toNat]) := by
  unfold Matrix._register PyM.bind
  rw [bank_write_ok hb0 hb255]
  simp only [bytearray1_int_ok hc0 hc255]
  rfl

theorem register_read_ok {b : Int} (hb0 : 0 ≤ b) (hb255 : b ≤ 255)
    (reg : Int) (hreg : reg ≠ _BANK_ADDRESS) (s : DState) :
    Matrix._register b reg none s =
      .ok (some (s.bus.mem b.toNat reg))
        ((i2c_readfrom_mem (i2c_writeto_mem s s.address _BANK_ADDRESS [b.toNat])
          s.address reg).2) := by
  unfold Matrix._register PyM.bind
  rw [bank_write_ok hb0 hb255]
  dsimp only [i2c_readfrom_mem]
  rw [if_neg hreg]
  rfl

/-! ### Claim theorems -/

/-- C6: `autoplay` called with `delay == 0` selects the configuration bank,
writes `_PICTURE_MODE` to the mode register, and returns immediately: the
`loops` and `frames` arguments are arbitrary (no range validation), no
other register is written, no error is raised, and the active frame is
unchanged. -/
theorem C6_autoplay_zero_picture (s : DState) (loops frames : Int) :
    Matrix.autoplay (.int 0) loops frames s =
      .ok () (i2c_writeto_mem (i2c_writeto_mem s s.address _BANK_ADDRESS [_CONFIG_BANK.toNat])
        s.address _MODE_REGISTER [_PICTURE_MODE.toNat]) ∧
    ((Matrix.autoplay (.int 0) loops frames s).stateAfter).bus.mem
      _CONFIG_BANK.toNat _MODE_REGISTER = _PICTURE_MODE.toNat ∧
    ((Matrix.autoplay (.int 0) loops frames s).stateAfter).curFrame = s.curFrame := by
  refine ⟨rfl, ?_, rfl⟩
  show (if (_CONFIG_BANK.toNat = _CONFIG_BANK.toNat ∧ _MODE_REGISTER = _MODE_REGISTER)
      then _PICTURE_MODE.toNat else s.bus.mem _CONFIG_BANK.toNat _MODE_REGISTER) = _PICTURE_MODE.toNat
  rw [if_pos ⟨rfl, rfl⟩]

/-- C7: `pixel` with `x` outside `[0, width]` or `y` outside `[0, height]`
is a silent no-op: it returns `None`, raises nothing (even for an
out-of-range color argument), and leaves the state — including the bus
trace — untouched. -/
theorem C7_pixel_oob_noop (s : DState) (x y : Int) (color frameArg : Option Int)
    (h : ¬(0 ≤ x ∧ x ≤ s.width) ∨ ¬(0 ≤ y ∧ y ≤ s.height)) :
    Matrix.pixel x y color frameArg s = .ok none s := by
  unfold Matrix.pixel
  rcases h with h | h
  · rw [if_pos h]
  · by_cases hx : 0 ≤ x ∧ x ≤ s.width
    · rw [if_neg (not_not_intro hx), if_pos h]
    · rw [if_pos hx]

/-- Witness for C7 at a concrete input: `pixel(17, 0, color=999)` on the
16x9 device does nothing at all. -/
theorem C7_pixel_oob_noop_witness :
    Matrix.pixel 17 0 (some 999) none sDemo = .ok none sDemo :=
  C7_pixel_oob_noop sDemo 17 0 (some 999) none (Or.inl (by decide))

/-- C10: a `pixel` read (color omitted) is identical whatever the `frame`
argument is — the result equals a read with `frame` omitted — and for
in-bounds coordinates it is exactly a `_register` read of the linear index
in the currently active frame, so the explicit frame argument only affects
the write path. -/
theorem C10_pixel_read_ignores_frame (s : DState) (x y k : Int) :
    Matrix.pixel x y none (some k) s = Matrix.pixel x y none none s ∧
    ((0 ≤ x ∧ x ≤ s.width) → (0 ≤ y ∧ y ≤ s.height) →
      Matrix.pixel x y none (some k) s =
        Matrix._register s.curFrame (x + y * s.width) none s) := by
  refine ⟨rfl, fun hx hy => ?_⟩
  unfold Matrix.pixel
  rw [if_neg (not_not_intro hx), if_neg (not_not_intro hy)]

/-- Witness for C10 at a concrete input. -/
theorem C10_pixel_read_ignores_frame_witness :
    Matrix.pixel 2 3 none (some 7) sDemo = Matrix.pixel 2 3 none none sDemo ∧
    Matrix.pixel 2 3 none (some 7) sDemo =
      Matrix._register sDemo.curFrame (2 + 3 * sDemo.width) none sDemo :=
  ⟨(C10_pixel_read_ignores_frame sDemo 2 3 7).1,
    (C10_pixel_read_ignores_frame sDemo 2 3 7).2 (by decide) (by decide)⟩

/-- C3: `fade()` with both fade arguments omitted does clear the second
breath register, but then — because the disabling branch has no `return` —
falls through to `int(math.log(fade_in / 26, 2))` with `fade_in` still
`None` and raises a `TypeError`, instead of completing normally as the
claim states.  The state records exactly the two bus transactions of the
breath-register clear. -/
theorem C3_fade_noargs_raises :
    Matrix.fade none none (.int 0) sDemo =
      .err (.typeError "unsupported operand for div: NoneType and int")
        (i2c_writeto_mem (i2c_writeto_mem sDemo 0x74 _BANK_ADDRESS [_CONFIG_BANK.toNat])
          0x74 _BREATH2_REGISTER [0]) ∧
    ((Matrix.fade none none (.int 0) sDemo).stateAfter).bus.mem
      _CONFIG_BANK.toNat _BREATH2_REGISTER = 0 ∧
    (Matrix.fade none none (.int 0) sDemo).isErr = true :=
  ⟨rfl, rfl, rfl⟩

/-- C4 counterexample: `sleep(1)` writes the byte 1 to the shutdown
register, not the claimed logical negation `not 1 = 0`. -/
theorem C4_sleep_no_inversion_counterexample :
    ((Matrix.sleep (some (.int 1)) sDemo).stateAfter).bus.mem
      _CONFIG_BANK.toNat _SHUTDOWN_REGISTER = 1 ∧ (1 : Nat) ≠ 0 :=
  ⟨rfl, by decide⟩

/-- C4 (amended): `sleep(value)` forwards the argument byte unchanged to
the shutdown register — `sleep(v)` writes exactly `v`, with no polarity
inversion (so under the register semantics 0 = shutdown, `sleep(0)` enters
shutdown and `sleep(1)` leaves it). -/
theorem C4_sleep_writes_value (s : DState) (v : Int) (h0 : 0 ≤ v) (h255 : v ≤ 255) :
    Matrix.sleep (some (.int v)) s =
      .ok none (i2c_writeto_mem (i2c_writeto_mem s s.address _BANK_ADDRESS [_CONFIG_BANK.toNat])
        s.address _SHUTDOWN_REGISTER [v.toNat]) ∧
    ((Matrix.sleep (some (.int v)) s).stateAfter).bus.mem
      _CONFIG_BANK.toNat _SHUTDOWN_REGISTER = v.toNat := by
  have e : Matrix.sleep (some (.int v)) s =
      .ok none (i2c_writeto_mem (i2c_writeto_mem s s.address _BANK_ADDRESS [_CONFIG_BANK.toNat])
        s.address _SHUTDOWN_REGISTER [v.toNat]) := by
    unfold Matrix.sleep
    exact register_write_ok (by decide) (by decide) h0 h255 _ s
  refine ⟨e, ?_⟩
  rw [e]
  show (if (_CONFIG_BANK.toNat = _CONFIG_BANK.toNat ∧ _SHUTDOWN_REGISTER = _SHUTDOWN_REGISTER)
      then v.toNat else s.bus.mem _CONFIG_BANK.toNat _SHUTDOWN_REGISTER) = v.toNat
  rw [if_pos ⟨rfl, rfl⟩]

/-- Witness for C4 (amended) at a concrete input. -/
theorem C4_sleep_writes_value_witness :
    Matrix.sleep (some (.int 1)) sDemo =
      .ok none (i2c_writeto_mem (i2c_writeto_mem sDemo sDemo.address _BANK_ADDRESS [_CONFIG_BANK.toNat])
        sDemo.address _SHUTDOWN_REGISTER [(1 : Int).toNat]) ∧
    ((Matrix.sleep (some (.int 1)) sDemo).stateAfter).bus.mem
      _CONFIG_BANK.toNat _SHUTDOWN_REGISTER = (1 : Int).toNat :=
  C4_sleep_writes_value sDemo 1 (by decide) (by decide)

/-- C5: on the enabling path, `autoplay(110, 1, 2)` passes validation
(110 / 11 = 10 falls in `[1, 64]`) and writes `1 << 4 | 2 = 0x12` to
autoplay register 1, but because `delay /= 11` is true division the value
for autoplay register 2 is a float, and after the bank re-select the
`bytearray` conversion raises `TypeError`: autoplay register 2 and the
mode register keep their power-up value 7, never written.  The validation
half of the claim does hold: `autoplay(100, 8, 0)` raises the loops
`ValueError` with the state — and hence the bus trace — completely
untouched. -/
theorem C5_autoplay_enable_float_raises :
    Matrix.autoplay (.int 110) 1 2 sDemo =
      .err (.typeError "cant convert float to int")
        (i2c_writeto_mem (i2c_writeto_mem (i2c_writeto_mem sDemo 0x74 _BANK_ADDRESS [_CONFIG_BANK.toNat])
          0x74 _AUTOPLAY1_REGISTER [0x12]) 0x74 _BANK_ADDRESS [_CONFIG_BANK.toNat]) ∧
    ((Matrix.autoplay (.int 110) 1 2 sDemo).stateAfter).bus.mem
      _CONFIG_BANK.toNat _AUTOPLAY1_REGISTER = 0x12 ∧
    ((Matrix.autoplay (.int 110) 1 2 sDemo).stateAfter).bus.mem
      _CONFIG_BANK.toNat _AUTOPLAY2_REGISTER = 7 ∧
    ((Matrix.autoplay (.int 110) 1 2 sDemo).stateAfter).bus.mem
      _CONFIG_BANK.toNat _MODE_REGISTER = 7 ∧
    Matrix.autoplay (.int 100) 8 0 sDemo = .err (.valueError "Loops out of range") sDemo :=
  ⟨rfl, rfl, rfl, rfl, rfl⟩

set_option maxRecDepth 100000 in
/-- C1: on the freshly constructed 16x9 controller, `fill(color=5)` on the
active frame followed by `pixel(0, 0)` returns 0xFF — the LED-enable byte
that `init` wrote at register 0x00 — not 5: `pixel` addresses the bare
linear index while `fill` writes the color bytes at offset 0x24 (where the
value 5 does land, as the second conjunct shows), so the two do not
address the same bytes. -/
theorem C1_fill_pixel_offset_mismatch :
    (((Matrix.fill 5 none).bind fun _ => Matrix.pixel 0 0 none none) sInit).valueOf =
      some (some 0xff) ∧
    ((((Matrix.fill 5 none).bind fun _ => Matrix.pixel 0 0 none none) sInit).stateAfter).bus.mem
      0 0x24 = 5 ∧
    (0xff : Nat) ≠ 5 := by
  refine ⟨rfl, rfl, by decide⟩

set_option maxRecDepth 100000 in
/-- C2 counterexample: replaying the bank selections through the complete
bus trace of `Matrix(16, 9, i2c)`'s construction, the shutdown register is
written zero times — there is no off→on→off toggle. -/
theorem C2_no_shutdown_toggle_in_construction :
    shutdownWrites bus0.sel sInit.bus.trace = 0 := by
  rfl

set_option maxRecDepth 100000 in
/-- C2 (amended): construction performs no hardware reset (the shutdown
register is never written), and runs initialization only: it enters
picture mode, selects frame 0 (the first four bus transactions shown in
order), leaves the mode, frame-pointer and audio-sync configuration
registers at 0, writes 0xFF to all 18 enable bytes of each of the 8
picture frames, sets the active frame to 0, and raises nothing. -/
theorem C2_construction_initializes :
    (Matrix.construct 16 9 0x74 bus0).isErr = false ∧
    sInit.curFrame = 0 ∧
    sInit.bus.trace.take 4 =
      [Tx.write 0x74 _BANK_ADDRESS [_CONFIG_BANK.toNat],
        Tx.write 0x74 _MODE_REGISTER [_PICTURE_MODE.toNat],
        Tx.write 0x74 _BANK_ADDRESS [_CONFIG_BANK.toNat],
        Tx.write 0x74 _FRAME_REGISTER [0]] ∧
    sInit.bus.mem _CONFIG_BANK.toNat _MODE_REGISTER = _PICTURE_MODE.toNat ∧
    sInit.bus.mem _CONFIG_BANK.toNat _FRAME_REGISTER = 0 ∧
    sInit.bus.mem _CONFIG_BANK.toNat _AUDIOSYNC_REGISTER = 0 ∧
    ((List.range 8).all fun f => (List.range 18).all fun c =>
      sInit.bus.mem f (Int.ofNat c) == 0xff) = true ∧
    shutdownWrites bus0.sel sInit.bus.trace = 0 := by
  exact ⟨rfl, rfl, rfl, rfl, rfl, rfl, rfl, rfl⟩

theorem writeto_mem_lookup (s : DState) (addr : Nat) (reg : Int) (d : Nat)
    (hreg : reg ≠ _BANK_ADDRESS) :
    (i2c_writeto_mem s addr reg [d]).bus.mem =
      fun b r => if b = s.bus.sel ∧ r = reg then d else s.bus.mem b r := by
  simp only [i2c_writeto_mem, busWriteBytes]
  rw [if_neg hreg]

theorem pixel_read_eval (t : DState) (x y : Int)
    (hx : 0 ≤ x ∧ x ≤ t.width) (hy : 0 ≤ y ∧ y ≤ t.height)
    (hf0 : 0 ≤ t.curFrame) (hf255 : t.curFrame ≤ 255)
    (hreg : x + y * t.width ≠ _BANK_ADDRESS) :
    (Matrix.pixel x y none none t).valueOf =
      some (some (t.bus.mem t.curFrame.toNat (x + y * t.width))) := by
  unfold Matrix.pixel
  rw [if_neg (not_not_intro hx), if_neg (not_not_intro hy)]
  dsimp only
  rw [register_read_ok hf0 hf255 _ hreg]
  rfl

/-- C8: for in-bounds coordinates on the 16x9 device and a color in
`[0, 255]`, `pixel(x, y, color)` followed by `pixel(x, y)` — both
targeting the active frame — returns exactly that color: both calls
address the same register of the same picture bank in the mock register
store. -/
theorem C8_pixel_roundtrip (s : DState) (x y c : Int)
    (hw : s.width = 16) (hh : s.height = 9)
    (hf0 : 0 ≤ s.curFrame) (hf8 : s.curFrame ≤ 8)
    (hx0 : 0 ≤ x) (hx : x ≤ 16) (hy0 : 0 ≤ y) (hy : y ≤ 9)
    (hc0 : 0 ≤ c) (hc : c ≤ 255) :
    (((Matrix.pixel x y (some c) none).bind fun _ => Matrix.pixel x y none none) s).valueOf
      = some (some c.toNat) := by
  have hxw : 0 ≤ x ∧ x ≤ s.width := ⟨hx0, by rw [hw]; exact hx⟩
  have hyh : 0 ≤ y ∧ y ≤ s.height := ⟨hy0, by rw [hh]; exact hy⟩
  have hcf255 : s.curFrame ≤ 255 := le_trans hf8 (by norm_num)
  have hidx : x + y * s.width ≠ _BANK_ADDRESS := by
    rw [hw]
    simp only [_BANK_ADDRESS]
    omega
  have h1 : Matrix.pixel x y (some c) none s =
      .ok none (i2c_writeto_mem (i2c_writeto_mem s s.address _BANK_ADDRESS [s.curFrame.toNat])
        s.address (x + y * s.width) [c.toNat]) := by
    unfold Matrix.pixel
    rw [if_neg (not_not_intro hxw), if_neg (not_not_intro hyh)]
    dsimp only [Option.getD]
    rw [if_neg (not_not_intro ⟨hc0, hc⟩)]
    unfold PyM.bind
    rw [register_write_ok hf0 hcf255 hc0 hc (x + y * s.width) s]
    rfl
  unfold PyM.bind
  rw [h1]
  show (Matrix.pixel x y none none
    (i2c_writeto_mem (i2c_writeto_mem s s.address _BANK_ADDRESS [s.curFrame.toNat])
      s.address (x + y * s.width) [c.toNat])).valueOf = some (some c.toNat)
  rw [pixel_read_eval
    (i2c_writeto_mem (i2c_writeto_mem s s.address _BANK_ADDRESS [s.curFrame.toNat])
      s.address (x + y * s.width) [c.toNat]) x y hxw hyh hf0 hcf255 hidx]
  refine congrArg (fun z => some (some z)) ?_
  rw [writeto_mem_lookup _ _ _ _ hidx]
  show (if (s.curFrame.toNat = s.curFrame.toNat ∧ x + y * s.width = x + y * s.width)
      then c.toNat else s.bus.mem s.curFrame.toNat (x + y * s.width)) = c.toNat
  rw [if_pos ⟨rfl, rfl⟩]

/-- Witness for C8 at a concrete input: writing color 77 at (3, 4) and
reading it back returns 77. -/
theorem C8_pixel_roundtrip_witness :
    (((Matrix.pixel 3 4 (some 77) none).bind fun _ => Matrix.pixel 3 4 none none) sDemo).valueOf
      = some (some (77 : Int).toNat) :=
  C8_pixel_roundtrip sDemo 3 4 77 (by decide) (by decide) (by decide) (by decide)
    (by decide) (by decide) (by decide) (by decide) (by decide) (by decide)

theorem toUnit_stateAfter {α : Type} (m : PyM α) (s : DState) :
    ((PyM.toUnit m) s).stateAfter = (m s).stateAfter := by
  unfold PyM.toUnit PyM.bind
  cases m s <;> rfl

theorem toUnit_isErr {α : Type} (m : PyM α) (s : DState) :
    ((PyM.toUnit m) s).isErr = (m s).isErr := by
  unfold PyM.toUnit PyM.bind
  cases m s <;> rfl

theorem frame_valid_curFrame (s : DState) (n : Int) (showF : Bool)
    (hn : 0 ≤ n ∧ n ≤ 8) :
    ((Matrix.frame (some n) showF) s).stateAfter.curFrame = n := by
  unfold Matrix.frame
  dsimp only
  rw [if_neg (not_not_intro hn)]
  cases showF with
  | true =>
    exact preservesFrame_bind (preservesFrame_register _CONFIG_BANK _FRAME_REGISTER
      (some (.int n))) (fun _ => preservesFrame_pure (none : Option Int)) { s with curFrame := n }
  | false => rfl

theorem frame_invalid (s : DState) (n : Int) (showF : Bool)
    (hn : ¬(0 ≤ n ∧ n ≤ 8)) :
    Matrix.frame (some n) showF s = .err (.valueError "Frame out of range") s := by
  unfold Matrix.frame
  dsimp only
  rw [if_pos hn]

set_option maxRecDepth 100000 in
theorem init_curFrame (s : DState) : ((Matrix.init s).stateAfter).curFrame = 0 := rfl

theorem frameInv_of_preserved {s s1 : DState} (h : FrameInv s)
    (hp : s1.curFrame = s.curFrame) : FrameInv s1 := by
  unfold FrameInv at h ⊢
  rw [hp]
  exact h

set_option maxRecDepth 100000 in
/-- C9: the active-frame invariant.  From any driver state whose
`self._frame` lies in `[0, 8]`, every public operation leaves it in
`[0, 8]`; moreover `init` sets it to 0, `frame(n)` sets it to `n` exactly
when `0 ≤ n ≤ 8` and otherwise raises, leaving it unchanged, and every
other operation (and `frame()` as a read) leaves it unchanged. -/
theorem C9_active_frame_invariant (s : DState) (op : Op) (h : FrameInv s) :
    FrameInv ((runOp op s).stateAfter) ∧
    (match op with
     | .opInit => ((runOp op s).stateAfter).curFrame = 0
     | .opFrame (some n) _ =>
         ((0 ≤ n ∧ n ≤ 8) → ((runOp op s).stateAfter).curFrame = n) ∧
         (¬(0 ≤ n ∧ n ≤ 8) → (runOp op s).isErr = true ∧
           ((runOp op s).stateAfter).curFrame = s.curFrame)
     | _ => ((runOp op s).stateAfter).curFrame = s.curFrame) := by
  cases op with
  | opInit =>
    have hz : ((runOp .opInit s).stateAfter).curFrame = 0 := init_curFrame s
    exact ⟨by unfold FrameInv; rw [hz]; exact ⟨le_refl 0, by norm_num⟩, hz⟩
  | opFrame f showF =>
    cases f with
    | none =>
      have hp : ((runOp (.opFrame none showF) s).stateAfter).curFrame = s.curFrame := rfl
      exact ⟨frameInv_of_preserved h hp, hp⟩
    | some n =>
      by_cases hn : 0 ≤ n ∧ n ≤ 8
      · have hcf : ((runOp (.opFrame (some n) showF) s).stateAfter).curFrame = n := by
          show ((PyM.toUnit (Matrix.frame (some n) showF)) s).stateAfter.curFrame = n
          rw [toUnit_stateAfter]
          exact frame_valid_curFrame s n showF hn
        exact ⟨by unfold FrameInv; rw [hcf]; exact hn,
          fun _ => hcf, fun hK => absurd hn hK⟩
      · have he : runOp (.opFrame (some n) showF) s =
            .err (.valueError "Frame out of range") s := by
          show PyM.toUnit (Matrix.frame (some n) showF) s = _
          unfold PyM.toUnit PyM.bind
          rw [frame_invalid s n showF hn]
        refine ⟨?_, fun hK => absurd hK hn, fun _ => ⟨by rw [he]; rfl, by rw [he]; rfl⟩⟩
        rw [he]
        exact h
  | opSleep v =>
    have hp := preservesFrame_toUnit (preservesFrame_sleep v) s
    exact ⟨frameInv_of_preserved h hp, hp⟩
  | opAutoplay d l fr =>
    have hp := preservesFrame_autoplay d l fr s
    exact ⟨frameInv_of_preserved h hp, hp⟩
  | opFade fi fo p =>
    have hp := preservesFrame_fade fi fo p s
    exact ⟨frameInv_of_preserved h hp, hp⟩
  | opAudioSync v =>
    have hp := preservesFrame_toUnit (preservesFrame_audio_sync v) s
    exact ⟨frameInv_of_preserved h hp, hp⟩
  | opAudioPlay v =>
    have hp := preservesFrame_toUnit (preservesFrame_audio_play v) s
    exact ⟨frameInv_of_preserved h hp, hp⟩
  | opFill c fr =>
    have hp := preservesFrame_fill c fr s
    exact ⟨frameInv_of_preserved h hp, hp⟩
  | opPixel x y c fr =>
    have hp := preservesFrame_toUnit (preservesFrame_pixel x y c fr) s
    exact ⟨frameInv_of_preserved h hp, hp⟩

/-- Witness for C9 at a concrete input: selecting frame 5 on the demo
state. -/
theorem C9_active_frame_invariant_witness :
    FrameInv ((runOp (.opFrame (some 5) true) sDemo).stateAfter) ∧
    (((0 ≤ (5 : Int) ∧ (5 : Int) ≤ 8) →
        ((runOp (.opFrame (some 5) true) sDemo).stateAfter).curFrame = 5) ∧
      (¬(0 ≤ (5 : Int) ∧ (5 : Int) ≤ 8) →
        (runOp (.opFrame (some 5) true) sDemo).isErr = true ∧
          ((runOp (.opFrame (some 5) true) sDemo).stateAfter).curFrame = sDemo.curFrame)) :=
  C9_active_frame_invariant sDemo (.opFrame (some 5) true) (by exact ⟨by decide, by decide⟩)

end IS31FL3731
